import Mathlib

/-!
Shallow embedding of the sitemapper crawl engine (src/assets/sitemapper.js).

Modelling decisions, in order of appearance in the source:

* JavaScript exceptions are values of `JsErr` (a `name` and a `message`), and
  code that may throw returns `Except JsErr _`.  The abort check used by both
  `fetch` and `crawl` (`e.name === 'AbortError' || e.message === 'Request was
  aborted'`) is `isAbortLike`.
* The transport + deserializer composite behind `parse` (got, gzip, the XML
  parser) is an oracle `net : String → Nat → ParseOutcome`: for a URL and the
  number of transport calls already issued to that URL during the run, it
  yields either an abort rejection, a classified failure (the `{error, data}`
  pair `parse` builds in its catch/non-200 paths, carrying `data.name` and the
  error message), or a successfully deserialized tree.
* `Date` parsing (`new Date(s).getTime()`) is an oracle
  `dp : String → Option Int`, `none` standing for `NaN` (`NaN >= x` is false).
* A run threads a `log : List String` of transport invocations (one entry per
  issued request, in order); the pre-abort checks that throw before any
  request leave the log untouched.
* The per-URL timer table only cancels in-flight transport calls; its effects
  (timeouts) surface through the oracle as `ParseOutcome.failure`, so the
  table itself is elided.
* `AbortSignal`s are `Option Bool`: `none` = no signal, `some b` = a signal
  whose `aborted` flag is `b` (a signal object is truthy in JS even when not
  aborted, which is what `options.signal || this.signal` tests).
* Recursion over the sitemap tree is unbounded in the source, so `crawl`
  takes a fuel parameter; with fuel 0 it resolves `undefined` (`.ok none`).
  Every theorem below supplies enough fuel for the tree it speaks about.
* `p-limit` only bounds how many child crawls run at once; the aggregation is
  by dispatch order (`Promise.all` keeps order), so the model runs children
  sequentially in dispatch order.  `concurrency` is kept in the settings but
  has no observable effect in this sequential model.
* `crawl`'s catch swallows non-abort exceptions and falls through without a
  return, so the JS function can resolve `undefined`; the model returns
  `Except JsErr (Option CrawlResult)` where `.ok none` is that `undefined`.
-/

/-- Error value thrown by the JavaScript code: an error name and a message. -/
structure JsErr where
  name : String
  message : String
  deriving DecidableEq, Repr

/-- One `url` (or `sitemap`) element of a deserialized document: a finite map
from field names (`loc`, `lastmod`, ...) to string values.  A missing key is
JS `undefined`. -/
structure SiteElem where
  fields : List (String × String)
  deriving DecidableEq, Repr

/-- Value of `data.urlset.url` / `data.sitemapindex.sitemap`: either a single
element object (the shape crawl defensively wraps) or a sequence. -/
inductive UrlField where
  | single (e : SiteElem)
  | list (es : List SiteElem)
  deriving DecidableEq, Repr

/-- The `urlset` node of a deserialized tree; `url = none` is JS `undefined`. -/
structure UrlsetNode where
  url : Option UrlField
  deriving DecidableEq, Repr

/-- The `sitemapindex` node of a deserialized tree; `sitemap = none` is JS
`undefined`. -/
structure IndexNode where
  sitemap : Option UrlField
  deriving DecidableEq, Repr

/-- A deserialized document as `crawl` inspects it: presence (= truthiness) of
`urlset` and `sitemapindex`. -/
structure ParseTree where
  urlset : Option UrlsetNode
  sitemapindex : Option IndexNode
  deriving DecidableEq, Repr

/-- The `data` half of `parse`'s `{error, data}` result: either an error-ish
object carrying a `name` (the catch paths and the non-200 path), or a
deserialized tree (which has no `name` field). -/
inductive ParseData where
  | errObj (name : Option String)
  | tree (t : ParseTree)
  deriving DecidableEq, Repr

/-- What one transport invocation for a URL produces, as seen at `parse`'s
boundary: an abort rejection (re-thrown), a classified failure (timeout,
HTTP error, parse error, ... — `parse` returns `{error: message, data}` with
`data.name = name`), or a successfully deserialized tree. -/
inductive ParseOutcome where
  | abort
  | failure (name : Option String) (msg : String)
  | success (t : ParseTree)
  deriving DecidableEq, Repr

/-- A produced site entry: a bare `site.loc` (possibly `undefined`) when no
field selection is configured, else the projected field mapping. -/
inductive SiteEntry where
  | bare (loc : Option String)
  | fieldsMap (m : List (String × String))
  deriving DecidableEq, Repr

/-- One error record of a crawl result, as built by `crawl` (`type` is
`data.name`, which can be `undefined` in the parse-failure branch). -/
structure ErrorRecord where
  type : Option String
  message : String
  url : String
  retries : Nat
  deriving DecidableEq, Repr

/-- The `{sites, errors}` value `crawl` resolves with (when it does not
resolve `undefined`). -/
structure CrawlResult where
  sites : List SiteEntry
  errors : List ErrorRecord
  deriving DecidableEq, Repr

/-- The `{url, sites, errors}` value `fetch` resolves with. -/
structure FetchResult where
  url : String
  sites : List SiteEntry
  errors : List ErrorRecord
  deriving DecidableEq, Repr

/-- The per-run settings the constructor stores that the crawl engine reads.
Transport-level options (timeout, headers, TLS policy, proxy) act behind the
`net` oracle and are omitted.  Exclusion patterns are test predicates on
strings (`RegExp.test`). -/
structure Settings where
  lastmod : Int
  retries : Nat
  concurrency : Nat
  fields : Option (List (String × Bool))
  exclusions : List (String → Bool)
  signal : Option Bool

/-- First-match association lookup (JS property access on parsed objects). -/
def assocFind {β : Type} (k : String) : List (String × β) → Option β
  | [] => none
  | p :: ps => if p.1 = k then some p.2 else assocFind k ps

/-- Field access `site[k]` on an element; `none` is JS `undefined`. -/
def getField (e : SiteElem) (k : String) : Option String :=
  assocFind k e.fields

/-- JS string coercion of a possibly-undefined string (`String(undefined)` is
`"undefined"`), as applied by `RegExp.test` and by URL interpolation. -/
def jsString : Option String → String
  | some s => s
  | none => "undefined"

/-- Truthiness of a possibly-undefined string (`undefined` and `""` are
falsy). -/
def truthyOptStr : Option String → Bool
  | some s => s != ""
  | none => false

/-- The JS `a || b` fallback on a possibly-undefined string. -/
def jsOr (o : Option String) (d : String) : String :=
  match o with
  | some s => if s = "" then d else s
  | none => d

/-- The abort test both `fetch` and `crawl` apply in their catch blocks:
`e.name === 'AbortError' || e.message === 'Request was aborted'`. -/
def isAbortLike (e : JsErr) : Bool :=
  e.name == "AbortError" || e.message == "Request was aborted"

/-- The `TypeError` raised by reading a property of `undefined` or calling
`.map` on a non-array (message abbreviated). -/
def typeErr : JsErr := ⟨"TypeError", "Cannot read properties of undefined"⟩

/-- The `data.name` read. -/
def dataName : ParseData → Option String
  | .errObj n => n
  | .tree _ => none

/-- The guard `data.urlset && data.urlset.url` of crawl's leaf branch. -/
def leafField (t : ParseTree) : Option UrlField :=
  match t.urlset with
  | some u => u.url
  | none => none

/-- Crawl's defensive wrap: `Array.isArray(data.urlset.url) ? data.urlset.url
: [data.urlset.url]`. -/
def wrapUrls : UrlField → List SiteElem
  | .single e => [e]
  | .list es => es

/-- The `isExcluded` method: no patterns means not excluded, else
`exclusions.some(p => p.test(url))`. -/
def isExcluded (cfg : Settings) (u : String) : Bool :=
  if cfg.exclusions.length = 0 then false
  else cfg.exclusions.any (fun p => p u)

/-- The non-bypassed part of the lastmod filter: `site.lastmod` must be
defined, parse to a timestamp (not `NaN`), and be `>= this.lastmod`. -/
def hasValidLastmod (cfg : Settings) (dp : String → Option Int) (site : SiteElem) : Bool :=
  match getField site "lastmod" with
  | none => false
  | some s =>
    match dp s with
    | none => false
    | some m => decide (m ≥ cfg.lastmod)

/-- Crawl's first leaf filter: pass everything when `this.lastmod === 0`,
else require a valid, recent-enough `lastmod`. -/
def lastmodFilter (cfg : Settings) (dp : String → Option Int) (site : SiteElem) : Bool :=
  if cfg.lastmod = 0 then true else hasValidLastmod cfg dp site

/-- JS object property assignment `m[k] = v` on an insertion-ordered object:
overwrite in place if the key exists, else append. -/
def jsSet (m : List (String × String)) (k v : String) : List (String × String) :=
  if m.any (fun p => decide (p.1 = k)) then m.map (fun p => if p.1 = k then (k, v) else p)
  else m ++ [(k, v)]

/-- Truthiness of `site[k]`. -/
def siteTruthy (site : SiteElem) (k : String) : Bool :=
  match getField site k with
  | some v => v != ""
  | none => false

/-- The `if (this.fields.sitemap) fields.sitemap = url;` initialisation of the
projected mapping. -/
def fieldsInit (fl : List (String × Bool)) (urlVal : String) : List (String × String) :=
  if assocFind "sitemap" fl = some true then [("sitemap", urlVal)] else []

/-- The field-selection loop: `for ([field, active] of Object.entries(
this.fields)) if (active && site[field]) fields[field] = site[field]`. -/
def projectFields (fl : List (String × Bool)) (urlVal : String) (site : SiteElem) :
    List (String × String) :=
  fl.foldl
    (fun acc p =>
      if p.2 && siteTruthy site p.1 then jsSet acc p.1 (jsString (getField site p.1)) else acc)
    (fieldsInit fl urlVal)

/-- The map step of the leaf branch: bare `site.loc` without field selection,
else the projected mapping (the owning sitemap URL is `urlVal`). -/
def projectSite (cfg : Settings) (urlVal : String) (site : SiteElem) : SiteEntry :=
  match cfg.fields with
  | none => .bare (getField site "loc")
  | some fl => .fieldsMap (projectFields fl urlVal site)

/-- The whole leaf projection of `crawl`: lastmod filter, then exclusion
filter on `site.loc`, then the map step. -/
def leafSites (cfg : Settings) (dp : String → Option Int) (urlVal : String)
    (urlArray : List SiteElem) : List SiteEntry :=
  ((urlArray.filter (fun site => lastmodFilter cfg dp site)).filter
      (fun site => !(isExcluded cfg (jsString (getField site "loc"))))).map
    (fun site => projectSite cfg urlVal site)

/-- The result aggregation of the sitemapindex branch: sites of the children
whose error list is empty, errors of the children whose error list is
non-empty, each concatenated in dispatch order by a fold (the
`filter`/`reduce` pair of the source). -/
def aggregateResults (results : List CrawlResult) : CrawlResult :=
  ⟨(results.filter (fun r => r.errors.length == 0)).foldl (fun prev r => prev ++ r.sites) [],
   (results.filter (fun r => r.errors.length != 0)).foldl (fun prev r => prev ++ r.errors) []⟩

/-- Reading `result.errors` on every child result: if any child resolved
`undefined`, the first such read throws (`none` here). -/
def sequenceResults : List (Option CrawlResult) → Option (List CrawlResult)
  | [] => some []
  | none :: _ => none
  | some r :: rest =>
    match sequenceResults rest with
    | none => none
    | some rs => some (r :: rs)

/-- Outcome of one `crawl` call: either a thrown error, or a resolution
(`none` = the JS function resolved `undefined`), plus the transport log. -/
abbrev CrawlOut := Except JsErr (Option CrawlResult) × List String

/-- Number of transport invocations already issued to a URL. -/
def countUrl (log : List String) (u : String) : Nat :=
  (log.filter (fun x => x == u)).length

/-- The `parse` method at its observable boundary: throw `Error('Request was
aborted')` when the signal is already aborted (before any transport call),
else issue one transport call and return got's/the deserializer's classified
outcome: re-throw aborts, or resolve `{error, data}`. -/
def parseStep (net : String → Nat → ParseOutcome) (url : String) (signal : Option Bool)
    (log : List String) : Except JsErr (Option String × ParseData) × List String :=
  if signal = some true then (.error ⟨"Error", "Request was aborted"⟩, log)
  else
    match net url (countUrl log url) with
    | .abort => (.error ⟨"AbortError", "This operation was aborted"⟩, log ++ [url])
    | .failure n m => (.ok (some m, .errObj n), log ++ [url])
    | .success t => (.ok (none, .tree t), log ++ [url])

/-- Crawl's catch block: re-throw abort-like errors, swallow everything else
(falling through without a return, i.e. resolving `undefined`). -/
def catchAbort : CrawlOut → CrawlOut
  | (.error e, lg) => if isAbortLike e then (.error e, lg) else (.ok none, lg)
  | (.ok x, lg) => (.ok x, lg)

/-- Dispatch of the child crawls in dispatch order (a rejection propagates,
as with `Promise.all`). -/
def crawlChildren (rec0 : String → List String → CrawlOut) :
    List String → List String → Except JsErr (List (Option CrawlResult)) × List String
  | [], log => (.ok [], log)
  | u :: us, log =>
    match rec0 u log with
    | (.error e, log2) => (.error e, log2)
    | (.ok r, log2) =>
      match crawlChildren rec0 us log2 with
      | (.error e, log3) => (.error e, log3)
      | (.ok rs, log3) => (.ok (r :: rs), log3)

/-- Waiting on the settled children and aggregating: a rejection propagates;
reading `errors` of a child that resolved `undefined` throws a `TypeError`;
otherwise the results are merged. -/
def indexJoin (children : Except JsErr (List (Option CrawlResult)) × List String) : CrawlOut :=
  match children with
  | (.error e, log2) => (.error e, log2)
  | (.ok ores, log2) =>
    match sequenceResults ores with
    | none => (.error typeErr, log2)
    | some results => (.ok (some (aggregateResults results)), log2)

/-- The sitemapindex branch of `crawl`: map the children to their `loc`,
filter exclusions, crawl each child with retry index 0, then aggregate.
Reading `.map` of an `undefined` (or non-array) `sitemap` throws a
`TypeError`. -/
def indexStep (cfg : Settings) (rec0 : String → List String → CrawlOut) (si : IndexNode)
    (log1 : List String) : CrawlOut :=
  match si.sitemap with
  | some (.list maps) =>
    indexJoin
      (crawlChildren rec0
        ((maps.map (fun m => jsString (getField m "loc"))).filter
          (fun u => !(isExcluded cfg u))) log1)
  | _ => (.error typeErr, log1)

/-- The shared retry step of the failure and unknown-state branches: recurse
with `retryIndex + 1` while `retryIndex < this.retries`, else resolve with no
sites and the single error record. -/
def retryOrRecord (cfg : Settings) (rec : String → Nat → List String → CrawlOut)
    (url : String) (retryIndex : Nat) (rcd : ErrorRecord) (log1 : List String) : CrawlOut :=
  if retryIndex < cfg.retries then rec url (retryIndex + 1) log1
  else (.ok (some ⟨[], [rcd]⟩), log1)

/-- The try block of `crawl`: parse, then branch on the truthy `error`, the
leaf guard `data.urlset && data.urlset.url`, the index guard
`data.sitemapindex`, and the unknown-state fallback. -/
def crawlTry (cfg : Settings) (net : String → Nat → ParseOutcome) (dp : String → Option Int)
    (rec : String → Nat → List String → CrawlOut)
    (url : String) (retryIndex : Nat) (signal : Option Bool) (log : List String) : CrawlOut :=
  match parseStep net url signal log with
  | (.error e, log1) => (.error e, log1)
  | (.ok (err, data), log1) =>
    if truthyOptStr err then
      retryOrRecord cfg rec url retryIndex ⟨dataName data, err.getD "", url, retryIndex⟩ log1
    else
      match data with
      | .tree t =>
        match leafField t with
        | some uf => (.ok (some ⟨leafSites cfg dp url (wrapUrls uf), []⟩), log1)
        | none =>
          match t.sitemapindex with
          | some si => indexStep cfg (fun u lg => rec u 0 lg) si log1
          | none =>
            retryOrRecord cfg rec url retryIndex
              ⟨some (jsOr (dataName data) "UnknownStateError"), "An unknown error occurred.",
                url, retryIndex⟩ log1
      | .errObj n =>
        retryOrRecord cfg rec url retryIndex
          ⟨some (jsOr n "UnknownStateError"), "An unknown error occurred.", url, retryIndex⟩ log1

/-- One `crawl` activation: the try block wrapped in the catch block. -/
def crawlBody (cfg : Settings) (net : String → Nat → ParseOutcome) (dp : String → Option Int)
    (rec : String → Nat → List String → CrawlOut)
    (url : String) (retryIndex : Nat) (signal : Option Bool) (log : List String) : CrawlOut :=
  catchAbort (crawlTry cfg net dp rec url retryIndex signal log)

/-- The recursive crawl engine, with fuel bounding the recursion depth (both
retry and child recursion step the fuel down by one; fuel 0 resolves
`undefined`, a case no theorem below relies on). -/
def crawl (cfg : Settings) (net : String → Nat → ParseOutcome) (dp : String → Option Int) :
    Nat → String → Nat → Option Bool → List String → CrawlOut
  | 0, _, _, _, log => (.ok none, log)
  | fuel + 1, url, retryIndex, signal, log =>
    crawlBody cfg net dp (fun u i lg => crawl cfg net dp fuel u i signal lg)
      url retryIndex signal log

/-- The effective token of `fetch`: `options.signal || this.signal` (a signal
object is truthy whether or not it is aborted). -/
def effectiveSignal : Option Bool → Option Bool → Option Bool
  | some s, _ => some s
  | none, cs => cs

/-- The public `fetch`: throw `Error('Request was aborted')` when the
effective token is already aborted (before any crawl), else crawl the root at
retry index 0; the catch re-throws abort-like errors and swallows the rest
(leaving the initialized empty results); finally read `results.sites` /
`results.errors` — which throws a `TypeError` when crawl resolved
`undefined`. -/
def fetch (cfg : Settings) (net : String → Nat → ParseOutcome) (dp : String → Option Int)
    (fuel : Nat) (url : String) (optSignal : Option Bool) :
    Except JsErr FetchResult × List String :=
  if effectiveSignal optSignal cfg.signal = some true then
    (.error ⟨"Error", "Request was aborted"⟩, [])
  else
    match crawl cfg net dp fuel url 0 (effectiveSignal optSignal cfg.signal) [] with
    | (.error e, log) => if isAbortLike e then (.error e, log) else (.ok ⟨url, [], []⟩, log)
    | (.ok none, log) => (.error typeErr, log)
    | (.ok (some r), log) => (.ok ⟨url, r.sites, r.errors⟩, log)

/-! Bridge lemmas: one-step equations for each branch of `crawl`, and small
facts about the transport log. -/

theorem crawl_zero (cfg : Settings) (net : String → Nat → ParseOutcome) (dp : String → Option Int)
    (url : String) (retryIndex : Nat) (signal : Option Bool) (log : List String) :
    crawl cfg net dp 0 url retryIndex signal log = (.ok none, log) := rfl

theorem crawl_succ (cfg : Settings) (net : String → Nat → ParseOutcome) (dp : String → Option Int)
    (fuel : Nat) (url : String) (retryIndex : Nat) (signal : Option Bool) (log : List String) :
    crawl cfg net dp (fuel + 1) url retryIndex signal log =
      crawlBody cfg net dp (fun u i lg => crawl cfg net dp fuel u i signal lg)
        url retryIndex signal log := rfl

theorem countUrl_nil (u : String) : countUrl [] u = 0 := rfl

theorem countUrl_append (l1 l2 : List String) (u : String) :
    countUrl (l1 ++ l2) u = countUrl l1 u + countUrl l2 u := by
  simp [countUrl, List.filter_append]

theorem countUrl_singleton_self (u : String) : countUrl [u] u = 1 := by
  simp [countUrl]

theorem countUrl_singleton_ne (v u : String) (h : v ≠ u) : countUrl [v] u = 0 := by
  simp [countUrl, h]

theorem countUrl_cons_self (u : String) (l : List String) :
    countUrl (u :: l) u = countUrl l u + 1 := by
  simp [countUrl, List.filter_cons]

theorem countUrl_replicate_self (k : Nat) (u : String) : countUrl (List.replicate k u) u = k := by
  induction k with
  | zero => rfl
  | succ n ih => rw [List.replicate_succ, countUrl_cons_self, ih]

theorem catchAbort_ok (x : Option CrawlResult) (lg : List String) :
    catchAbort (.ok x, lg) = (.ok x, lg) := rfl

theorem catchAbort_idem (x : CrawlOut) : catchAbort (catchAbort x) = catchAbort x := by
  obtain ⟨e | r, lg⟩ := x
  · simp only [catchAbort]
    by_cases h : isAbortLike e = true
    · simp [h]
    · simp [h, catchAbort]
  · rfl

theorem catchAbort_crawl (cfg : Settings) (net : String → Nat → ParseOutcome)
    (dp : String → Option Int) (fuel : Nat) (url : String) (retryIndex : Nat)
    (signal : Option Bool) (log : List String) :
    catchAbort (crawl cfg net dp fuel url retryIndex signal log) =
      crawl cfg net dp fuel url retryIndex signal log := by
  cases fuel with
  | zero => rfl
  | succ f => rw [crawl_succ, crawlBody, catchAbort_idem]

theorem parseStep_preaborted (net : String → Nat → ParseOutcome) (url : String)
    (log : List String) :
    parseStep net url (some true) log = (.error ⟨"Error", "Request was aborted"⟩, log) := by
  simp [parseStep]

theorem parseStep_success (net : String → Nat → ParseOutcome) (url : String)
    (signal : Option Bool) (log : List String) (t : ParseTree)
    (hsig : signal ≠ some true)
    (hnet : net url (countUrl log url) = .success t) :
    parseStep net url signal log = (.ok (none, .tree t), log ++ [url]) := by
  rw [parseStep, if_neg hsig, hnet]

theorem parseStep_failure (net : String → Nat → ParseOutcome) (url : String)
    (signal : Option Bool) (log : List String) (n : Option String) (m : String)
    (hsig : signal ≠ some true)
    (hnet : net url (countUrl log url) = .failure n m) :
    parseStep net url signal log = (.ok (some m, .errObj n), log ++ [url]) := by
  rw [parseStep, if_neg hsig, hnet]

theorem parseStep_abort (net : String → Nat → ParseOutcome) (url : String)
    (signal : Option Bool) (log : List String)
    (hsig : signal ≠ some true)
    (hnet : net url (countUrl log url) = .abort) :
    parseStep net url signal log =
      (.error ⟨"AbortError", "This operation was aborted"⟩, log ++ [url]) := by
  rw [parseStep, if_neg hsig, hnet]

theorem crawl_leaf_eq (cfg : Settings) (net : String → Nat → ParseOutcome)
    (dp : String → Option Int) (fuel : Nat) (url : String) (r : Nat) (signal : Option Bool)
    (log : List String) (t : ParseTree) (uf : UrlField)
    (hsig : signal ≠ some true)
    (hnet : net url (countUrl log url) = .success t)
    (hleaf : leafField t = some uf) :
    crawl cfg net dp (fuel + 1) url r signal log =
      (.ok (some ⟨leafSites cfg dp url (wrapUrls uf), []⟩), log ++ [url]) := by
  rw [crawl_succ, crawlBody, crawlTry, parseStep_success net url signal log t hsig hnet]
  simp [truthyOptStr, hleaf, catchAbort]

theorem crawl_index_eq (cfg : Settings) (net : String → Nat → ParseOutcome)
    (dp : String → Option Int) (fuel : Nat) (url : String) (r : Nat) (signal : Option Bool)
    (log : List String) (t : ParseTree) (si : IndexNode)
    (hsig : signal ≠ some true)
    (hnet : net url (countUrl log url) = .success t)
    (hleaf : leafField t = none)
    (hsi : t.sitemapindex = some si) :
    crawl cfg net dp (fuel + 1) url r signal log =
      catchAbort
        (indexStep cfg (fun u lg => crawl cfg net dp fuel u 0 signal lg) si (log ++ [url])) := by
  rw [crawl_succ, crawlBody, crawlTry, parseStep_success net url signal log t hsig hnet]
  simp [truthyOptStr, hleaf, hsi]

theorem crawl_unknown_eq (cfg : Settings) (net : String → Nat → ParseOutcome)
    (dp : String → Option Int) (fuel : Nat) (url : String) (r : Nat) (signal : Option Bool)
    (log : List String) (t : ParseTree)
    (hsig : signal ≠ some true)
    (hnet : net url (countUrl log url) = .success t)
    (hleaf : leafField t = none)
    (hsi : t.sitemapindex = none) :
    crawl cfg net dp (fuel + 1) url r signal log =
      (if r < cfg.retries then crawl cfg net dp fuel url (r + 1) signal (log ++ [url])
       else
        (.ok (some ⟨[], [⟨some "UnknownStateError", "An unknown error occurred.", url, r⟩]⟩),
          log ++ [url])) := by
  rw [crawl_succ, crawlBody, crawlTry, parseStep_success net url signal log t hsig hnet]
  simp only [truthyOptStr, hleaf, hsi, retryOrRecord, dataName, jsOr]
  by_cases hr : r < cfg.retries
  · simp [hr, catchAbort_crawl]
  · simp [hr, catchAbort]

theorem crawl_failure_eq (cfg : Settings) (net : String → Nat → ParseOutcome)
    (dp : String → Option Int) (fuel : Nat) (url : String) (r : Nat) (signal : Option Bool)
    (log : List String) (n : Option String) (m : String)
    (hsig : signal ≠ some true)
    (hnet : net url (countUrl log url) = .failure n m)
    (hm : m ≠ "") :
    crawl cfg net dp (fuel + 1) url r signal log =
      (if r < cfg.retries then crawl cfg net dp fuel url (r + 1) signal (log ++ [url])
       else (.ok (some ⟨[], [⟨n, m, url, r⟩]⟩), log ++ [url])) := by
  rw [crawl_succ, crawlBody, crawlTry, parseStep_failure net url signal log n m hsig hnet]
  simp only [truthyOptStr, bne_iff_ne, ne_eq, hm, not_false_eq_true, if_true, retryOrRecord,
    dataName, Option.getD_some]
  by_cases hr : r < cfg.retries
  · simp [hr, catchAbort_crawl]
  · simp [hr, catchAbort]

/-- A node whose every transport attempt fails (with a truthy error message)
is retried while `retryIndex < this.retries` and then resolves with no sites
and one error record built from the last attempt, having issued one transport
call per attempt. -/
theorem crawl_fail_all (cfg : Settings) (net : String → Nat → ParseOutcome)
    (dp : String → Option Int) (url : String) (signal : Option Bool)
    (nm : Nat → Option String) (msg : Nat → String)
    (hsig : signal ≠ some true)
    (hnet : ∀ k, net url k = .failure (nm k) (msg k))
    (hmsg : ∀ k, msg k ≠ "") :
    ∀ fuel r log, cfg.retries - r < fuel → r ≤ cfg.retries →
      crawl cfg net dp fuel url r signal log =
        (.ok (some ⟨[], [⟨nm (countUrl log url + (cfg.retries - r)),
            msg (countUrl log url + (cfg.retries - r)), url, cfg.retries⟩]⟩),
          log ++ List.replicate (cfg.retries - r + 1) url) := by
  intro fuel
  induction fuel with
  | zero => intro r log h _; exact absurd h (Nat.not_lt_zero _)
  | succ f ih =>
    intro r log hf hr
    rw [crawl_failure_eq cfg net dp f url r signal log (nm (countUrl log url))
      (msg (countUrl log url)) hsig (hnet (countUrl log url)) (hmsg (countUrl log url))]
    by_cases hlt : r < cfg.retries
    · rw [if_pos hlt, ih (r + 1) (log ++ [url]) (by omega) (by omega)]
      have hc : countUrl (log ++ [url]) url = countUrl log url + 1 := by
        rw [countUrl_append, countUrl_singleton_self]
      have h1 : countUrl log url + 1 + (cfg.retries - (r + 1)) =
          countUrl log url + (cfg.retries - r) := by omega
      have h2 : (log ++ [url]) ++ List.replicate (cfg.retries - (r + 1) + 1) url =
          log ++ List.replicate (cfg.retries - r + 1) url := by
        rw [List.append_assoc]
        congr 1
        rw [List.singleton_append, ← List.replicate_succ]
        congr 1
        omega
      rw [hc, h1, h2]
    · have hre : r = cfg.retries := by omega
      rw [if_neg hlt, hre]
      simp

/-- With lastmod filtering off and no exclusion patterns, the two leaf
filters drop nothing. -/
theorem leafSites_nofilter (cfg : Settings) (dp : String → Option Int) (urlVal : String)
    (es : List SiteElem) (h0 : cfg.lastmod = 0) (hex : cfg.exclusions = []) :
    leafSites cfg dp urlVal es = es.map (fun site => projectSite cfg urlVal site) := by
  unfold leafSites
  have h1 : es.filter (fun site => lastmodFilter cfg dp site) = es :=
    List.filter_eq_self.mpr (fun a _ => by simp [lastmodFilter, h0])
  rw [h1]
  have h2 : es.filter (fun site => !(isExcluded cfg (jsString (getField site "loc")))) = es :=
    List.filter_eq_self.mpr (fun a _ => by simp [isExcluded, hex])
  rw [h2]

/-- With no field selection either, the leaf projection is exactly the list
of bare `loc` values, in document order. -/
theorem leafSites_default (cfg : Settings) (dp : String → Option Int) (urlVal : String)
    (es : List SiteElem) (h0 : cfg.lastmod = 0) (hex : cfg.exclusions = [])
    (hf : cfg.fields = none) :
    leafSites cfg dp urlVal es = es.map (fun site => SiteEntry.bare (getField site "loc")) := by
  rw [leafSites_nofilter cfg dp urlVal es h0 hex]
  simp [projectSite, hf]

/-- A sitemapindex document whose `sitemap` entries carry exactly the given
child `loc` values. -/
def indexTree (childUrls : List String) : ParseTree :=
  ⟨none, some ⟨some (.list (childUrls.map (fun u => ⟨[("loc", u)]⟩)))⟩⟩

/-- A plain urlset document with the given `url` elements. -/
def urlsetTree (es : List SiteElem) : ParseTree :=
  ⟨some ⟨some (.list es)⟩, none⟩

/-- Crawling a node that deserializes to a sitemapindex of the given child
URLs (with no exclusion pattern configured) dispatches exactly those children
at retry index 0 and joins their results. -/
theorem crawl_index_children (cfg : Settings) (net : String → Nat → ParseOutcome)
    (dp : String → Option Int) (fuel : Nat) (url : String) (r : Nat) (signal : Option Bool)
    (log : List String) (childUrls : List String)
    (hsig : signal ≠ some true)
    (hnet : net url (countUrl log url) = .success (indexTree childUrls))
    (hex : cfg.exclusions = []) :
    crawl cfg net dp (fuel + 1) url r signal log =
      catchAbort
        (indexJoin
          (crawlChildren (fun u lg => crawl cfg net dp fuel u 0 signal lg) childUrls
            (log ++ [url]))) := by
  rw [crawl_index_eq cfg net dp fuel url r signal log (indexTree childUrls)
    ⟨some (.list (childUrls.map (fun u => ⟨[("loc", u)]⟩)))⟩ hsig hnet rfl rfl]
  show catchAbort (indexStep cfg _ _ _) = _
  rw [indexStep]
  dsimp only
  have hcomp : ((fun m => jsString (getField m "loc")) ∘
      (fun u : String => (⟨[("loc", u)]⟩ : SiteElem))) = id := by
    funext u
    rfl
  rw [List.map_map, hcomp, List.map_id,
    List.filter_eq_self.mpr (fun a _ => by simp [isExcluded, hex])]

/-! Claim theorems.  Shared concrete values used by the witnesses and
counterexamples follow first. -/

/-- A Date-parsing oracle that treats every string as unparsable (`NaN`). -/
def dpNone : String → Option Int := fun _ => none

/-- Default-like settings: lastmod filtering off, no retries, concurrency 10,
no field selection, no exclusions, no constructor signal. -/
def cfgPlain : Settings := ⟨0, 0, 10, none, [], none⟩

/-- Settings with an already-aborted constructor signal. -/
def cfgAborted : Settings := ⟨0, 0, 10, none, [], some true⟩

/-- Settings with `retries = 2`. -/
def cfgRetry2 : Settings := ⟨0, 2, 10, none, [], none⟩

/-- A transport that always fails with an HTTP error. -/
def netHttpFail : String → Nat → ParseOutcome :=
  fun _ _ => .failure (some "HTTPError") "HTTP Error occurred: Response code 404 (Not Found)"

/-- C2.  For every configuration and every url, if the effective cancellation
token (the per-call signal, or else the constructor signal) is already
triggered when `fetch` is called, then `fetch` rejects with the abort error
(`Error('Request was aborted')`, which `isAbortLike` recognises) before any
transport call is issued: the transport log of the run is empty. -/
theorem claim_C2_pre_aborted (cfg : Settings) (net : String → Nat → ParseOutcome)
    (dp : String → Option Int) (fuel : Nat) (url : String) (optSignal : Option Bool)
    (h : effectiveSignal optSignal cfg.signal = some true) :
    fetch cfg net dp fuel url optSignal = (.error ⟨"Error", "Request was aborted"⟩, [])
    ∧ isAbortLike ⟨"Error", "Request was aborted"⟩ = true := by
  constructor
  · rw [fetch, if_pos h]
  · rfl

/-- Witness for C2 at a concrete configuration (constructor signal aborted,
no per-call signal). -/
theorem claim_C2_pre_aborted_witness :
    fetch cfgAborted (fun _ _ => .abort) dpNone 5 "https://example.com/sitemap.xml" none =
      (.error ⟨"Error", "Request was aborted"⟩, [])
    ∧ isAbortLike ⟨"Error", "Request was aborted"⟩ = true :=
  claim_C2_pre_aborted cfgAborted (fun _ _ => .abort) dpNone 5
    "https://example.com/sitemap.xml" none rfl

/-- C4.  A node whose parse fails on every attempt (with a truthy error
message), crawled with `retries = R` and enough fuel, resolves with exactly
one error record whose `retries` field is `R`, and the transport is invoked
exactly `R + 1` times for that URL (the log grows by `R + 1` copies of it). -/
theorem claim_C4_retry_bound (cfg : Settings) (net : String → Nat → ParseOutcome)
    (dp : String → Option Int) (url : String) (signal : Option Bool)
    (nm : Nat → Option String) (msg : Nat → String) (fuel : Nat) (log : List String)
    (hsig : signal ≠ some true)
    (hnet : ∀ k, net url k = .failure (nm k) (msg k))
    (hmsg : ∀ k, msg k ≠ "")
    (hfuel : cfg.retries < fuel) :
    crawl cfg net dp fuel url 0 signal log =
      (.ok (some ⟨[], [⟨nm (countUrl log url + cfg.retries),
          msg (countUrl log url + cfg.retries), url, cfg.retries⟩]⟩),
        log ++ List.replicate (cfg.retries + 1) url)
    ∧ countUrl (log ++ List.replicate (cfg.retries + 1) url) url =
        countUrl log url + (cfg.retries + 1) := by
  constructor
  · have h := crawl_fail_all cfg net dp url signal nm msg hsig hnet hmsg fuel 0 log
      (by omega) (by omega)
    simpa using h
  · rw [countUrl_append, countUrl_replicate_self]

/-- Witness for C4: with `retries = 2`, a permanently 404ing node yields one
record with `retries = 2` after exactly 3 transport calls. -/
theorem claim_C4_retry_bound_witness :
    crawl cfgRetry2 netHttpFail dpNone 4 "https://example.com/sitemap.xml" 0 none [] =
      (.ok (some ⟨[], [⟨some "HTTPError",
          "HTTP Error occurred: Response code 404 (Not Found)",
          "https://example.com/sitemap.xml", 2⟩]⟩),
        List.replicate 3 "https://example.com/sitemap.xml")
    ∧ countUrl (List.replicate 3 "https://example.com/sitemap.xml")
        "https://example.com/sitemap.xml" = 3 := by
  have h := claim_C4_retry_bound cfgRetry2 netHttpFail dpNone
    "https://example.com/sitemap.xml" none (fun _ => some "HTTPError")
    (fun _ => "HTTP Error occurred: Response code 404 (Not Found)") 4 []
    (by simp) (fun k => rfl) (fun k => by simp) (by decide)
  exact ⟨h.1, h.2⟩

/-- C5.  A root whose document deserializes to a plain urlset of elements
`es`, fetched with lastmod filtering off, no exclusions and no field
selection, resolves with `sites` being exactly the bare `loc` of each
element in document order (so of length `es.length`) and an empty error
list, after a single transport call. -/
theorem claim_C5_plain_urlset (cfg : Settings) (net : String → Nat → ParseOutcome)
    (dp : String → Option Int) (fuel : Nat) (url : String) (optSignal : Option Bool)
    (es : List SiteElem) (si : Option IndexNode)
    (h0 : cfg.lastmod = 0) (hex : cfg.exclusions = []) (hf : cfg.fields = none)
    (hsig : effectiveSignal optSignal cfg.signal ≠ some true)
    (hnet : net url 0 = .success ⟨some ⟨some (.list es)⟩, si⟩) :
    fetch cfg net dp (fuel + 1) url optSignal =
      (.ok ⟨url, es.map (fun site => SiteEntry.bare (getField site "loc")), []⟩, [url])
    ∧ (es.map (fun site => SiteEntry.bare (getField site "loc"))).length = es.length := by
  have hc : crawl cfg net dp (fuel + 1) url 0 (effectiveSignal optSignal cfg.signal) [] =
      (.ok (some ⟨leafSites cfg dp url (wrapUrls (.list es)), []⟩), [] ++ [url]) :=
    crawl_leaf_eq cfg net dp fuel url 0 (effectiveSignal optSignal cfg.signal) []
      ⟨some ⟨some (.list es)⟩, si⟩ (.list es) hsig hnet rfl
  constructor
  · rw [fetch, if_neg hsig, hc]
    simp [wrapUrls, leafSites_default cfg dp url es h0 hex hf]
  · simp

/-- Witness for C5 at a two-element urlset. -/
theorem claim_C5_plain_urlset_witness :
    fetch cfgPlain
      (fun _ _ => .success ⟨some ⟨some (.list
        [⟨[("loc", "https://example.com/p1")]⟩,
         ⟨[("loc", "https://example.com/p2"), ("lastmod", "2024-01-01")]⟩])⟩, none⟩)
      dpNone 2 "https://example.com/sitemap.xml" none =
      (.ok ⟨"https://example.com/sitemap.xml",
        [.bare (some "https://example.com/p1"), .bare (some "https://example.com/p2")], []⟩,
        ["https://example.com/sitemap.xml"])
    ∧ ([SiteEntry.bare (some "https://example.com/p1"),
        SiteEntry.bare (some "https://example.com/p2")]).length =
      ([⟨[("loc", "https://example.com/p1")]⟩,
        (⟨[("loc", "https://example.com/p2"), ("lastmod", "2024-01-01")]⟩ : SiteElem)]).length := by
  have h := claim_C5_plain_urlset cfgPlain
    (fun _ _ => .success ⟨some ⟨some (.list
      [⟨[("loc", "https://example.com/p1")]⟩,
       ⟨[("loc", "https://example.com/p2"), ("lastmod", "2024-01-01")]⟩])⟩, none⟩)
    dpNone 1 "https://example.com/sitemap.xml" none
    [⟨[("loc", "https://example.com/p1")]⟩,
     ⟨[("loc", "https://example.com/p2"), ("lastmod", "2024-01-01")]⟩] none
    rfl rfl rfl (by decide) rfl
  exact ⟨h.1, h.2⟩

/-- C7.  The lastmod filter stage of the leaf projection: with a nonzero
threshold every surviving element has a defined `lastmod` that parses to a
timestamp `>= cfg.lastmod` (that is exactly `hasValidLastmod`); with the
threshold 0 the stage drops nothing, whether or not elements carry a
`lastmod`.  `leafSites` applies this filter before the exclusion filter and
the map step. -/
theorem claim_C7_lastmod_filter (cfg : Settings) (dp : String → Option Int)
    (es : List SiteElem) :
    (cfg.lastmod ≠ 0 →
      ∀ e ∈ es.filter (fun site => lastmodFilter cfg dp site),
        hasValidLastmod cfg dp e = true)
    ∧ (cfg.lastmod = 0 → es.filter (fun site => lastmodFilter cfg dp site) = es) := by
  constructor
  · intro hT e he
    have hmem := List.of_mem_filter he
    simpa [lastmodFilter, hT] using hmem
  · intro h0
    exact List.filter_eq_self.mpr (fun a _ => by simp [lastmodFilter, h0])

/-- Witness for C7: a concrete threshold keeps exactly the element with a
recent parsable lastmod (first part), and threshold 0 keeps a lastmod-less
element (second part). -/
theorem claim_C7_lastmod_filter_witness :
    hasValidLastmod ⟨100, 0, 10, none, [], none⟩
      (fun s => if s = "2024-01-01" then some 150 else none)
      ⟨[("loc", "https://example.com/p1"), ("lastmod", "2024-01-01")]⟩ = true
    ∧ List.filter
        (fun site => lastmodFilter cfgPlain
          (fun s => if s = "2024-01-01" then some 150 else none) site)
        [⟨[("loc", "https://example.com/p2")]⟩] = [⟨[("loc", "https://example.com/p2")]⟩] := by
  constructor
  · exact (claim_C7_lastmod_filter ⟨100, 0, 10, none, [], none⟩
      (fun s => if s = "2024-01-01" then some 150 else none)
      [⟨[("loc", "https://example.com/p1"), ("lastmod", "2024-01-01")]⟩]).1
      (by decide)
      ⟨[("loc", "https://example.com/p1"), ("lastmod", "2024-01-01")]⟩
      (by decide)
  · exact (claim_C7_lastmod_filter cfgPlain
      (fun s => if s = "2024-01-01" then some 150 else none)
      [⟨[("loc", "https://example.com/p2")]⟩]).2 rfl

/-- C9.  The leaf projection is a pure function of the configured settings it
reads: two settings agreeing on `lastmod`, `exclusions` and `fields` (and a
fixed Date oracle, owning URL and input element list) produce identical
output, both for the two filter stages alone and for the full projection; in
particular running the projection twice on identical input yields identical
output. -/
theorem claim_C9_projection_pure (cfg1 cfg2 : Settings) (dp : String → Option Int)
    (urlVal : String) (es : List SiteElem)
    (hl : cfg1.lastmod = cfg2.lastmod) (he : cfg1.exclusions = cfg2.exclusions)
    (hf : cfg1.fields = cfg2.fields) :
    leafSites cfg1 dp urlVal es = leafSites cfg2 dp urlVal es
    ∧ (es.filter (fun site => lastmodFilter cfg1 dp site)).filter
        (fun site => !(isExcluded cfg1 (jsString (getField site "loc")))) =
      (es.filter (fun site => lastmodFilter cfg2 dp site)).filter
        (fun site => !(isExcluded cfg2 (jsString (getField site "loc")))) := by
  obtain ⟨l1, r1, c1, f1, x1, s1⟩ := cfg1
  obtain ⟨l2, r2, c2, f2, x2, s2⟩ := cfg2
  have hl2 : l1 = l2 := hl
  have he2 : x1 = x2 := he
  have hf2 : f1 = f2 := hf
  subst hl2 he2 hf2
  exact ⟨rfl, rfl⟩

/-- Witness for C9: two settings differing in retries, concurrency and
signal (but agreeing on the three projection inputs) project identically. -/
theorem claim_C9_projection_pure_witness :
    leafSites cfgPlain dpNone "https://example.com/sitemap.xml"
        [⟨[("loc", "https://example.com/p1")]⟩] =
      leafSites ⟨0, 5, 2, none, [], some false⟩ dpNone "https://example.com/sitemap.xml"
        [⟨[("loc", "https://example.com/p1")]⟩]
    ∧ (List.filter (fun site => lastmodFilter cfgPlain dpNone site)
        [⟨[("loc", "https://example.com/p1")]⟩]).filter
        (fun site => !(isExcluded cfgPlain (jsString (getField site "loc")))) =
      (List.filter (fun site => lastmodFilter ⟨0, 5, 2, none, [], some false⟩ dpNone site)
        [⟨[("loc", "https://example.com/p1")]⟩]).filter
        (fun site => !(isExcluded ⟨0, 5, 2, none, [], some false⟩
          (jsString (getField site "loc")))) :=
  claim_C9_projection_pure cfgPlain ⟨0, 5, 2, none, [], some false⟩ dpNone
    "https://example.com/sitemap.xml" [⟨[("loc", "https://example.com/p1")]⟩] rfl rfl rfl

/-- C10.  A parsed leaf document whose `urlset.url` is a single element
object is wrapped into a one-element list before filtering, so (with the
filters not configured) the node yields exactly one SiteEntry. -/
theorem claim_C10_single_element (cfg : Settings) (net : String → Nat → ParseOutcome)
    (dp : String → Option Int) (fuel : Nat) (url : String) (r : Nat) (signal : Option Bool)
    (log : List String) (e : SiteElem) (si : Option IndexNode)
    (h0 : cfg.lastmod = 0) (hex : cfg.exclusions = []) (hsig : signal ≠ some true)
    (hnet : net url (countUrl log url) = .success ⟨some ⟨some (.single e)⟩, si⟩) :
    wrapUrls (.single e) = [e]
    ∧ crawl cfg net dp (fuel + 1) url r signal log =
        (.ok (some ⟨[projectSite cfg url e], []⟩), log ++ [url])
    ∧ ([projectSite cfg url e]).length = 1 := by
  refine ⟨rfl, ?_, rfl⟩
  have hc := crawl_leaf_eq cfg net dp fuel url r signal log ⟨some ⟨some (.single e)⟩, si⟩
    (.single e) hsig hnet rfl
  rw [hc]
  have : leafSites cfg dp url (wrapUrls (.single e)) = [projectSite cfg url e] := by
    rw [leafSites_nofilter cfg dp url (wrapUrls (.single e)) h0 hex]
    rfl
  rw [this]

/-- Witness for C10 at a concrete single-element sitemap. -/
theorem claim_C10_single_element_witness :
    wrapUrls (.single ⟨[("loc", "https://example.com/only")]⟩) =
      [⟨[("loc", "https://example.com/only")]⟩]
    ∧ crawl cfgPlain
        (fun _ _ => .success ⟨some ⟨some (.single ⟨[("loc", "https://example.com/only")]⟩)⟩, none⟩)
        dpNone 1 "https://example.com/sitemap.xml" 0 none [] =
        (.ok (some ⟨[.bare (some "https://example.com/only")], []⟩),
          ["https://example.com/sitemap.xml"])
    ∧ ([SiteEntry.bare (some "https://example.com/only")]).length = 1 := by
  have h := claim_C10_single_element cfgPlain
    (fun _ _ => .success ⟨some ⟨some (.single ⟨[("loc", "https://example.com/only")]⟩)⟩, none⟩)
    dpNone 0 "https://example.com/sitemap.xml" 0 none []
    ⟨[("loc", "https://example.com/only")]⟩ none rfl rfl (by decide) rfl
  exact ⟨h.1, h.2.1, h.2.2⟩

/-- C8 counterexample input: an element carrying both `loc` and `lastmod`. -/
def siteBoth : SiteElem := ⟨[("loc", "https://example.com/page"), ("lastmod", "2024-01-01")]⟩

/-- C8 counterexample: with the field selection requesting only `lastmod`,
the produced mapping does NOT include `loc`, although the source element has
one — the claim's "always includes the loc field" fails. -/
theorem claim_C8_counterexample :
    projectSite ⟨0, 0, 10, some [("lastmod", true)], [], none⟩ "https://example.com/sitemap.xml"
        siteBoth = .fieldsMap [("lastmod", "2024-01-01")]
    ∧ assocFind "loc" [("lastmod", "2024-01-01")] = none
    ∧ getField siteBoth "loc" = some "https://example.com/page" :=
  ⟨rfl, rfl, rfl⟩

/-- Looking up a different key is unaffected by the in-place overwrite half
of `jsSet`. -/
theorem assocFind_map_overwrite_ne (m : List (String × String)) (k v f : String) (h : f ≠ k) :
    assocFind f (m.map (fun p => if p.1 = k then (k, v) else p)) = assocFind f m := by
  induction m with
  | nil => rfl
  | cons p ps ih =>
    by_cases hp : p.1 = k
    · rw [List.map_cons, if_pos hp]
      simp only [assocFind]
      rw [if_neg (fun hh => h hh.symm), if_neg (fun hh => h (hp ▸ hh).symm), ih]
    · rw [List.map_cons, if_neg hp]
      simp only [assocFind]
      by_cases hf : p.1 = f
      · rw [if_pos hf, if_pos hf]
      · rw [if_neg hf, if_neg hf, ih]

/-- Looking up a different key is unaffected by the append half of `jsSet`. -/
theorem assocFind_append_single_ne (m : List (String × String)) (k v f : String) (h : f ≠ k) :
    assocFind f (m ++ [(k, v)]) = assocFind f m := by
  induction m with
  | nil => simp [assocFind, Ne.symm h]
  | cons p ps ih =>
    rw [List.cons_append]
    simp only [assocFind]
    by_cases hf : p.1 = f
    · rw [if_pos hf, if_pos hf]
    · rw [if_neg hf, if_neg hf, ih]

/-- `jsSet` does not disturb other keys. -/
theorem assocFind_jsSet_ne (m : List (String × String)) (k v f : String) (h : f ≠ k) :
    assocFind f (jsSet m k v) = assocFind f m := by
  unfold jsSet
  by_cases ha : m.any (fun p => decide (p.1 = k)) = true
  · rw [if_pos ha]
    exact assocFind_map_overwrite_ne m k v f h
  · rw [if_neg ha]
    exact assocFind_append_single_ne m k v f h

/-- The overwrite half of `jsSet` stores the value when the key occurs. -/
theorem assocFind_map_overwrite_self (m : List (String × String)) (k v : String)
    (ha : m.any (fun p => decide (p.1 = k)) = true) :
    assocFind k (m.map (fun p => if p.1 = k then (k, v) else p)) = some v := by
  induction m with
  | nil => simp at ha
  | cons p ps ih =>
    by_cases hp : p.1 = k
    · simp [List.map_cons, hp, assocFind]
    · have ha2 : ps.any (fun q => decide (q.1 = k)) = true := by
        simpa [List.any_cons, hp] using ha
      simp [List.map_cons, hp, assocFind, ih ha2]

/-- The append half of `jsSet` stores the value when the key is fresh. -/
theorem assocFind_append_single_self (m : List (String × String)) (k v : String)
    (ha : m.any (fun p => decide (p.1 = k)) = false) :
    assocFind k (m ++ [(k, v)]) = some v := by
  induction m with
  | nil => simp [assocFind]
  | cons p ps ih =>
    rw [List.any_cons, Bool.or_eq_false_iff] at ha
    have hp : ¬p.1 = k := by simpa using ha.1
    rw [List.cons_append]
    simp only [assocFind]
    rw [if_neg hp, ih ha.2]

/-- `jsSet` always stores the assigned value at the assigned key. -/
theorem assocFind_jsSet_self (m : List (String × String)) (k v : String) :
    assocFind k (jsSet m k v) = some v := by
  unfold jsSet
  by_cases ha : m.any (fun p => decide (p.1 = k)) = true
  · rw [if_pos ha]
    exact assocFind_map_overwrite_self m k v ha
  · rw [if_neg ha]
    have ha2 : m.any (fun p => decide (p.1 = k)) = false := by
      cases hcase : m.any (fun p => decide (p.1 = k))
      · rfl
      · exact absurd hcase ha
    exact assocFind_append_single_self m k v ha2

/-- The field-selection loop does not touch a key that names none of the
remaining entries. -/
theorem projectFold_preserve (site : SiteElem) (f : String) (fl : List (String × Bool)) :
    ∀ acc, (∀ p ∈ fl, p.1 ≠ f) →
      assocFind f (fl.foldl (fun acc p =>
        if p.2 && siteTruthy site p.1 then jsSet acc p.1 (jsString (getField site p.1)) else acc)
        acc) = assocFind f acc := by
  induction fl with
  | nil => intro acc _; rfl
  | cons p ps ih =>
    intro acc hne
    rw [List.foldl_cons, ih _ (fun q hq => hne q (List.mem_cons_of_mem p hq))]
    by_cases hc : (p.2 && siteTruthy site p.1) = true
    · rw [if_pos hc, assocFind_jsSet_ne _ _ _ _ (Ne.symm (hne p (List.mem_cons_self p ps)))]
    · rw [if_neg hc]

/-- A requested field that is present and truthy on the element ends up in
the loop's output with the element's value (keys being unrepeated, as in a
JS object). -/
theorem projectFold_found (site : SiteElem) (f v : String)
    (hv : getField site f = some v) (hv2 : v ≠ "") (fl : List (String × Bool)) :
    ∀ acc, (f, true) ∈ fl → (fl.map Prod.fst).Nodup →
      assocFind f (fl.foldl (fun acc p =>
        if p.2 && siteTruthy site p.1 then jsSet acc p.1 (jsString (getField site p.1)) else acc)
        acc) = some v := by
  induction fl with
  | nil => intro acc h _; simp at h
  | cons p ps ih =>
    intro acc hmem hnd
    rw [List.map_cons, List.nodup_cons] at hnd
    rw [List.foldl_cons]
    rcases List.mem_cons.mp hmem with heq | htl
    · have hpf : p.1 = f := by rw [← heq]
      have hpt : p.2 = true := by rw [← heq]
      have hcond : (p.2 && siteTruthy site p.1) = true := by
        rw [hpt, hpf]
        simp [siteTruthy, hv, hv2]
      rw [if_pos hcond]
      have hnone : ∀ q ∈ ps, q.1 ≠ f := by
        intro q hq hqf
        exact hnd.1 (hpf ▸ hqf ▸ List.mem_map_of_mem Prod.fst hq)
      rw [projectFold_preserve site f ps _ hnone, hpf, hv]
      rw [assocFind_jsSet_self]
      rfl
    · exact ih _ htl hnd.2

/-- Once `fields.sitemap = url` is set and the element itself has no truthy
`sitemap` field, the loop never overwrites it. -/
theorem projectFold_sitemap (site : SiteElem) (urlVal : String)
    (hfalse : siteTruthy site "sitemap" = false) (fl : List (String × Bool)) :
    ∀ acc, assocFind "sitemap" acc = some urlVal →
      assocFind "sitemap" (fl.foldl (fun acc p =>
        if p.2 && siteTruthy site p.1 then jsSet acc p.1 (jsString (getField site p.1)) else acc)
        acc) = some urlVal := by
  induction fl with
  | nil => intro acc h; exact h
  | cons p ps ih =>
    intro acc hacc
    rw [List.foldl_cons]
    apply ih
    by_cases hp : p.1 = "sitemap"
    · rw [if_neg (by rw [hp, hfalse, Bool.and_false]; exact Bool.false_ne_true)]
      exact hacc
    · by_cases hc : (p.2 && siteTruthy site p.1) = true
      · rw [if_pos hc, assocFind_jsSet_ne _ _ _ _ (fun hh => hp hh.symm)]
        exact hacc
      · rw [if_neg hc]
        exact hacc

/-- C8 amended: when a field selection is configured, the produced mapping
contains every requested field that is present and truthy on the source
element with the element's value (`loc` included exactly when it is itself
requested and present, not unconditionally), and it contains the owning
sitemap URL under `sitemap` whenever that field is requested and the element
itself carries no truthy `sitemap` value. -/
theorem claim_C8_amended (fl : List (String × Bool)) (urlVal : String) (site : SiteElem)
    (hnd : (fl.map Prod.fst).Nodup) :
    (∀ f v, (f, true) ∈ fl → getField site f = some v → v ≠ "" →
      assocFind f (projectFields fl urlVal site) = some v)
    ∧ (assocFind "sitemap" fl = some true → siteTruthy site "sitemap" = false →
      assocFind "sitemap" (projectFields fl urlVal site) = some urlVal) := by
  constructor
  · intro f v hmem hv hv2
    exact projectFold_found site f v hv hv2 fl (fieldsInit fl urlVal) hmem hnd
  · intro hreq hfalse
    apply projectFold_sitemap site urlVal hfalse fl
    simp [fieldsInit, hreq, assocFind]

/-- Witness for the amended C8: requesting `loc` and `sitemap` on an element
that has a `loc` but no `sitemap` field yields both the element's `loc` and
the owning sitemap URL. -/
theorem claim_C8_amended_witness :
    assocFind "loc" (projectFields [("loc", true), ("sitemap", true)]
        "https://example.com/sitemap.xml" siteBoth) = some "https://example.com/page"
    ∧ assocFind "sitemap" (projectFields [("loc", true), ("sitemap", true)]
        "https://example.com/sitemap.xml" siteBoth) = some "https://example.com/sitemap.xml" := by
  have h := claim_C8_amended [("loc", true), ("sitemap", true)] "https://example.com/sitemap.xml"
    siteBoth (by decide)
  exact ⟨h.1 "loc" "https://example.com/page" (by decide) rfl (by decide), h.2 rfl rfl⟩

theorem countUrl_cons_ne (v u : String) (l : List String) (h : v ≠ u) :
    countUrl (v :: l) u = countUrl l u := by
  simp [countUrl, List.filter_cons, h]

/-- Transport for the C1 counterexample: the root is an index of a healthy
leaf child and a permanently failing child. -/
def netMixedIndex : String → Nat → ParseOutcome := fun u _ =>
  if u = "https://x.example/root.xml" then
    .success (indexTree ["https://x.example/leaf.xml", "https://x.example/bad.xml"])
  else if u = "https://x.example/leaf.xml" then
    .success (urlsetTree [⟨[("loc", "https://x.example/page1")]⟩])
  else .failure (some "HTTPError") "HTTP Error occurred"

/-- C1 counterexample: an index node one of whose children fails resolves
with BOTH a non-empty site list and a non-empty error list, so a crawl
result is not always either all-sites or all-errors. -/
theorem claim_C1_counterexample :
    (crawl cfgPlain netMixedIndex dpNone 3 "https://x.example/root.xml" 0 none []).1 =
      .ok (some ⟨[.bare (some "https://x.example/page1")],
        [⟨some "HTTPError", "HTTP Error occurred", "https://x.example/bad.xml", 0⟩]⟩)
    ∧ ¬(([⟨some "HTTPError", "HTTP Error occurred", "https://x.example/bad.xml", 0⟩] :
          List ErrorRecord) = []
        ∨ (([SiteEntry.bare (some "https://x.example/page1")] : List SiteEntry) = []
          ∧ ([⟨some "HTTPError", "HTTP Error occurred", "https://x.example/bad.xml", 0⟩] :
              List ErrorRecord).length = 1)) :=
  ⟨rfl, by simp⟩

/-- C1 amended: the error and unknown branches produce zero sites with one
record and the leaf branch zero errors, but an index node can resolve with
sites and errors together, and the aggregator keeps a child's sites only if
that child's whole error list is empty.  Concretely, for any root whose only
child `c` is itself an index of a healthy leaf `a` and a permanently failing
`b`: `c` resolves with both `a`'s sites and `b`'s single error record, and
the root then DISCARDS `c`'s sites, resolving with no sites and that record. -/
theorem claim_C1_amended (cfg : Settings) (net : String → Nat → ParseOutcome)
    (dp : String → Option Int) (r c a b : String) (signal : Option Bool)
    (es : List SiteElem) (nm : Nat → Option String) (msg : Nat → String)
    (hsig : signal ≠ some true) (hex : cfg.exclusions = [])
    (hnr : ∀ k, net r k = .success (indexTree [c]))
    (hnc : ∀ k, net c k = .success (indexTree [a, b]))
    (hna : ∀ k, net a k = .success (urlsetTree es))
    (hnb : ∀ k, net b k = .failure (nm k) (msg k))
    (hmsg : ∀ k, msg k ≠ "")
    (hbr : b ≠ r) (hbc : b ≠ c) (hba : b ≠ a) :
    crawl cfg net dp (cfg.retries + 3) c 0 signal [r] =
      (.ok (some ⟨leafSites cfg dp a es, [⟨nm cfg.retries, msg cfg.retries, b, cfg.retries⟩]⟩),
        [r, c, a] ++ List.replicate (cfg.retries + 1) b)
    ∧ crawl cfg net dp (cfg.retries + 4) r 0 signal [] =
      (.ok (some ⟨[], [⟨nm cfg.retries, msg cfg.retries, b, cfg.retries⟩]⟩),
        [r, c, a] ++ List.replicate (cfg.retries + 1) b) := by
  have hA : crawl cfg net dp (cfg.retries + 2) a 0 signal [r, c] =
      (.ok (some ⟨leafSites cfg dp a es, []⟩), [r, c, a]) := by
    have h := crawl_leaf_eq cfg net dp (cfg.retries + 1) a 0 signal [r, c]
      (urlsetTree es) (.list es) hsig (hna _) rfl
    simpa [wrapUrls] using h
  have hcount : countUrl [r, c, a] b = 0 := by
    rw [countUrl_cons_ne r b _ (Ne.symm hbr), countUrl_cons_ne c b _ (Ne.symm hbc),
      countUrl_cons_ne a b _ (Ne.symm hba)]
    rfl
  have hB : crawl cfg net dp (cfg.retries + 2) b 0 signal [r, c, a] =
      (.ok (some ⟨[], [⟨nm cfg.retries, msg cfg.retries, b, cfg.retries⟩]⟩),
        [r, c, a] ++ List.replicate (cfg.retries + 1) b) := by
    have h := crawl_fail_all cfg net dp b signal nm msg hsig hnb hmsg (cfg.retries + 2) 0
      [r, c, a] (by omega) (by omega)
    simpa [hcount] using h
  have hC : crawl cfg net dp (cfg.retries + 3) c 0 signal [r] =
      (.ok (some ⟨leafSites cfg dp a es, [⟨nm cfg.retries, msg cfg.retries, b, cfg.retries⟩]⟩),
        [r, c, a] ++ List.replicate (cfg.retries + 1) b) := by
    have h1 : crawl cfg net dp (cfg.retries + 3) c 0 signal [r] =
        catchAbort (indexJoin (crawlChildren
          (fun u lg => crawl cfg net dp (cfg.retries + 2) u 0 signal lg) [a, b] ([r] ++ [c]))) :=
      crawl_index_children cfg net dp (cfg.retries + 2) c 0 signal [r] [a, b] hsig (hnc _) hex
    rw [h1]
    simp [crawlChildren, hA, hB, indexJoin, sequenceResults, aggregateResults, catchAbort]
  refine ⟨hC, ?_⟩
  have h1 : crawl cfg net dp (cfg.retries + 4) r 0 signal [] =
      catchAbort (indexJoin (crawlChildren
        (fun u lg => crawl cfg net dp (cfg.retries + 3) u 0 signal lg) [c] ([] ++ [r]))) :=
    crawl_index_children cfg net dp (cfg.retries + 3) r 0 signal [] [c] hsig (hnr _) hex
  rw [h1]
  simp [crawlChildren, hC, indexJoin, sequenceResults, aggregateResults, catchAbort]

/-- Transport for the C1 amended witness: root → mid-index → (leaf, bad). -/
def netDeepIndex : String → Nat → ParseOutcome := fun u _ =>
  if u = "https://x.example/root.xml" then .success (indexTree ["https://x.example/mid.xml"])
  else if u = "https://x.example/mid.xml" then
    .success (indexTree ["https://x.example/leaf.xml", "https://x.example/bad.xml"])
  else if u = "https://x.example/leaf.xml" then
    .success (urlsetTree [⟨[("loc", "https://x.example/page1")]⟩])
  else .failure (some "HTTPError") "HTTP Error occurred"

/-- Witness for the amended C1, at retries 0: the mid index resolves with one
site and one error, and the root discards the site. -/
theorem claim_C1_amended_witness :
    crawl cfgPlain netDeepIndex dpNone 3 "https://x.example/mid.xml" 0 none
        ["https://x.example/root.xml"] =
      (.ok (some ⟨[.bare (some "https://x.example/page1")],
        [⟨some "HTTPError", "HTTP Error occurred", "https://x.example/bad.xml", 0⟩]⟩),
        ["https://x.example/root.xml", "https://x.example/mid.xml",
          "https://x.example/leaf.xml", "https://x.example/bad.xml"])
    ∧ crawl cfgPlain netDeepIndex dpNone 4 "https://x.example/root.xml" 0 none [] =
      (.ok (some ⟨[],
        [⟨some "HTTPError", "HTTP Error occurred", "https://x.example/bad.xml", 0⟩]⟩),
        ["https://x.example/root.xml", "https://x.example/mid.xml",
          "https://x.example/leaf.xml", "https://x.example/bad.xml"]) :=
  claim_C1_amended cfgPlain netDeepIndex dpNone "https://x.example/root.xml"
    "https://x.example/mid.xml" "https://x.example/leaf.xml" "https://x.example/bad.xml" none
    [⟨[("loc", "https://x.example/page1")]⟩] (fun _ => some "HTTPError")
    (fun _ => "HTTP Error occurred") (by decide) rfl (fun k => rfl) (fun k => rfl)
    (fun k => rfl) (fun k => rfl)
    (fun k => by show "HTTP Error occurred" ≠ ""; decide)
    (by decide) (by decide) (by decide)

/-- A transport whose document has a truthy `sitemapindex` but no `sitemap`
field (e.g. XML of the shape `sitemapindex` over unrelated children). -/
def netIndexNoSitemap : String → Nat → ParseOutcome := fun _ _ => .success ⟨none, some ⟨none⟩⟩

/-- C3 evaluated at the failing input: on a document with a truthy
`sitemapindex` but no `sitemap` array, the sitemapindex branch throws a
`TypeError`, crawl's catch swallows it and resolves `undefined`, and `fetch`
then throws the (non-abort) `TypeError` from `results.sites` — with no error
record ever produced — instead of resolving successfully with a non-empty
error list. -/
theorem claim_C3_typeerror_escape :
    fetch cfgPlain netIndexNoSitemap dpNone 3 "https://x.example/strange.xml" none =
      (.error typeErr, ["https://x.example/strange.xml"])
    ∧ isAbortLike typeErr = false
    ∧ (crawl cfgPlain netIndexNoSitemap dpNone 3 "https://x.example/strange.xml" 0 none []).1 =
      .ok none :=
  ⟨rfl, rfl, rfl⟩

/-- Settings with `retries = 1`. -/
def cfgRetry1 : Settings := ⟨0, 1, 10, none, [], none⟩

/-- C6 counterexample: a deserialized tree with neither `urlset.url` nor
`sitemapindex.sitemap` — but a truthy `sitemapindex` — is NOT treated as a
retryable UnknownState failure: with `retries = 1`, crawl issues a single
transport call (no retry), produces no error record, and resolves
`undefined`. -/
theorem claim_C6_counterexample :
    leafField ⟨none, some ⟨none⟩⟩ = none
    ∧ (⟨none, some ⟨none⟩⟩ : ParseTree).sitemapindex = some ⟨none⟩
    ∧ (⟨none⟩ : IndexNode).sitemap = none
    ∧ cfgRetry1.retries = 1
    ∧ crawl cfgRetry1 netIndexNoSitemap dpNone 3 "https://x.example/u6.xml" 0 none [] =
      (.ok none, ["https://x.example/u6.xml"]) :=
  ⟨rfl, rfl, rfl, rfl, rfl⟩

/-- C6 amended: the classification of a successfully deserialized document
is: presence of `urlset.url` → leaf; otherwise a truthy `sitemapindex` —
with or without a `sitemap` array — selects the child-index branch, which
crashes (crawl resolves `undefined`, no retry, no error record) when
`sitemap` is not an array; only when BOTH `urlset.url` and `sitemapindex`
are absent is the node treated as a retryable UnknownState failure. -/
theorem claim_C6_amended (cfg : Settings) (net : String → Nat → ParseOutcome)
    (dp : String → Option Int) (fuel : Nat) (url : String) (r : Nat)
    (signal : Option Bool) (log : List String) (t : ParseTree)
    (hsig : signal ≠ some true)
    (hnet : net url (countUrl log url) = .success t) :
    (∀ uf, leafField t = some uf →
      crawl cfg net dp (fuel + 1) url r signal log =
        (.ok (some ⟨leafSites cfg dp url (wrapUrls uf), []⟩), log ++ [url]))
    ∧ (∀ si, leafField t = none → t.sitemapindex = some si →
        crawl cfg net dp (fuel + 1) url r signal log =
          catchAbort (indexStep cfg (fun u lg => crawl cfg net dp fuel u 0 signal lg) si
            (log ++ [url])))
    ∧ (∀ si, leafField t = none → t.sitemapindex = some si →
        (∀ maps, si.sitemap ≠ some (.list maps)) →
        crawl cfg net dp (fuel + 1) url r signal log = (.ok none, log ++ [url]))
    ∧ (leafField t = none → t.sitemapindex = none →
        crawl cfg net dp (fuel + 1) url r signal log =
          (if r < cfg.retries then crawl cfg net dp fuel url (r + 1) signal (log ++ [url])
           else
            (.ok (some ⟨[], [⟨some "UnknownStateError", "An unknown error occurred.", url, r⟩]⟩),
              log ++ [url]))) := by
  refine ⟨?_, ?_, ?_, ?_⟩
  · intro uf hleaf
    exact crawl_leaf_eq cfg net dp fuel url r signal log t uf hsig hnet hleaf
  · intro si hleaf hsi
    exact crawl_index_eq cfg net dp fuel url r signal log t si hsig hnet hleaf hsi
  · intro si hleaf hsi hnotlist
    rw [crawl_index_eq cfg net dp fuel url r signal log t si hsig hnet hleaf hsi, indexStep]
    cases hsm : si.sitemap with
    | none => rfl
    | some uf =>
      cases uf with
      | single e => rfl
      | list maps => exact absurd hsm (hnotlist maps)
  · intro hleaf hsi
    exact crawl_unknown_eq cfg net dp fuel url r signal log t hsig hnet hleaf hsi

/-- A transport whose document has neither `urlset` nor `sitemapindex`. -/
def netNeither : String → Nat → ParseOutcome := fun _ _ => .success ⟨none, none⟩

/-- Witness for the amended C6 (the UnknownState conjunct, retries 0). -/
theorem claim_C6_amended_witness :
    crawl cfgPlain netNeither dpNone 1 "https://x.example/odd.xml" 0 none [] =
      (.ok (some ⟨[], [⟨some "UnknownStateError", "An unknown error occurred.",
        "https://x.example/odd.xml", 0⟩]⟩), ["https://x.example/odd.xml"]) :=
  (claim_C6_amended cfgPlain netNeither dpNone 0 "https://x.example/odd.xml" 0 none []
    ⟨none, none⟩ (by decide) rfl).2.2.2 rfl rfl
